import Mathlib

/-!
Shallow embedding of the reminder notification scheduler of this repository
(`reminderNotifications` service and the `NotificationContext` reminder loop).

Timestamps are integers in milliseconds since the epoch, matching the
JavaScript `Date.getTime()` arithmetic the source performs.  Collaborator
calls (reminder fetch, email send, dedup update) are modelled as explicit
result-valued functions in an environment record; a thrown exception or a
returned error object is an `Except.error`.  An evaluation pass returns a
trace (`PassLog`) of every collaborator call and channel invocation it makes,
tagged by reminder id, plus the log lines it would emit.
-/

/-- A reminder row, from the columns the service reads:
`id`, `title`, `description`, `due_date`, `is_completed`, `notification_sent`,
`reminder_type`. -/
structure Reminder where
  id : Nat
  title : String
  description : Option String
  dueDate : Int
  isCompleted : Bool
  notificationSent : Bool
  reminderType : String
deriving Repr, DecidableEq

/-- The `preferences` JSON object of a profile: each key may be absent. -/
structure Prefs where
  email_notifications : Option Bool
  browser_notifications : Option Bool
deriving Repr, DecidableEq

/-- A profile row as selected by the pass: `id, email, full_name, preferences`;
`preferences` itself may be null/absent. -/
structure Profile where
  id : Nat
  email : String
  full_name : Option String
  preferences : Option Prefs
deriving Repr, DecidableEq

/-- `!!(profile.preferences && profile.preferences.email_notifications)`:
false when `preferences` is null or the key is absent or falsy. -/
def emailNotificationsEnabled (p : Profile) : Bool :=
  match p.preferences with
  | none => false
  | some prefs => prefs.email_notifications.getD false

/-- `!!(profile.preferences && profile.preferences.browser_notifications)`. -/
def browserNotificationsEnabled (p : Profile) : Bool :=
  match p.preferences with
  | none => false
  | some prefs => prefs.browser_notifications.getD false

/-- The pure due-window evaluator: current time is within ±2 minutes
(2 * 60 * 1000 ms) of the due timestamp, both ends inclusive. -/
def isDue (now dueAt : Int) : Bool :=
  decide (dueAt - 2 * 60 * 1000 ≤ now) && decide (now ≤ dueAt + 2 * 60 * 1000)

/-- The filter the pass applies to a fetched reminder: completed reminders and
reminders whose notification was already sent return false at once; otherwise
the symmetric inclusive window around `due_date` is tested. -/
def reminderDueFilter (now : Int) (r : Reminder) : Bool :=
  if r.isCompleted || r.notificationSent then
    false
  else
    let windowStart := r.dueDate - 2 * 60 * 1000
    let windowEnd := r.dueDate + 2 * 60 * 1000
    decide (windowStart ≤ now) && decide (now ≤ windowEnd)

/-- Result object of the email channel adapter: `{ success, error? }`. -/
structure EmailResult where
  success : Bool
  error : Option String
deriving Repr, DecidableEq

/-- Collaborator environment of one evaluation pass: the reminder fetch per
profile id, the email send and the dedup update per reminder id.  An
`Except.error` models a returned error object or a thrown exception. -/
structure Env where
  fetchReminders : Nat → Except String (List Reminder)
  sendEmail : Nat → Except String EmailResult
  updateReminder : Nat → Except String Unit

/-- Trace of one evaluation pass: which profiles had a reminder fetch issued,
which browser-channel invocations happened (reminder id, title, body), which
reminder ids were emailed, which reminder ids had a dedup update issued, and
the error log lines. -/
structure PassLog where
  reminderFetches : List Nat
  browserCalls : List (Nat × String × String)
  emailCalls : List Nat
  updates : List Nat
  errors : List String
deriving Repr, DecidableEq

/-- The empty trace. -/
def PassLog.empty : PassLog := ⟨[], [], [], [], []⟩

/-- Concatenation of traces, in execution order. -/
def PassLog.append (a b : PassLog) : PassLog :=
  ⟨a.reminderFetches ++ b.reminderFetches,
   a.browserCalls ++ b.browserCalls,
   a.emailCalls ++ b.emailCalls,
   a.updates ++ b.updates,
   a.errors ++ b.errors⟩

/-- Whether the email adapter reported success for a reminder id:
`result && result.success`, false on a thrown exception. -/
def emailReportsSuccess (env : Env) (i : Nat) : Bool :=
  match env.sendEmail i with
  | Except.ok result => result.success
  | Except.error _ => false

/-- Whether the dedup update call for a reminder id succeeds in `env`. -/
def updateSucceeded (env : Env) (i : Nat) : Bool :=
  match env.updateReminder i with
  | Except.ok _ => true
  | Except.error _ => false

/-- The store state of a reminder after a pass: `notification_sent` becomes
true exactly when the pass issued a dedup update for its id and that
collaborator call succeeded. -/
def markNotified (env : Env) (log : PassLog) (r : Reminder) : Reminder :=
  if log.updates.contains r.id && updateSucceeded env r.id then
    { r with notificationSent := true }
  else
    r

/-- Body of the per-due-reminder loop (the inner try/catch): browser channel
first when enabled; then either the email branch — send, and issue the dedup
update only on reported success — or, when email is disabled, the
unconditional dedup update. -/
def processReminder (env : Env) (emailEnabled browserEnabled : Bool)
    (r : Reminder) : PassLog :=
  let browserLog : List (Nat × String × String) :=
    if browserEnabled then
      [(r.id, "Reminder: " ++ r.title, r.description.getD "You have a reminder due now")]
    else []
  if emailEnabled then
    match env.sendEmail r.id with
    | Except.error e =>
        ⟨[], browserLog, [r.id], [], ["Error sending notification for reminder: " ++ e]⟩
    | Except.ok result =>
        if result.success then
          match env.updateReminder r.id with
          | Except.error e =>
              ⟨[], browserLog, [r.id], [r.id], ["Error updating reminder: " ++ e]⟩
          | Except.ok _ =>
              ⟨[], browserLog, [r.id], [r.id], []⟩
        else
          ⟨[], browserLog, [r.id], [], ["Failed to send notification for reminder"]⟩
  else
    match env.updateReminder r.id with
    | Except.error e =>
        ⟨[], browserLog, [], [r.id], ["Error updating reminder: " ++ e]⟩
    | Except.ok _ =>
        ⟨[], browserLog, [], [r.id], []⟩

/-- The loop over the due reminders of one profile, in fetch order. -/
def processDueReminders (env : Env) (emailEnabled browserEnabled : Bool) :
    List Reminder → PassLog
  | [] => PassLog.empty
  | r :: rs =>
      (processReminder env emailEnabled browserEnabled r).append
        (processDueReminders env emailEnabled browserEnabled rs)

/-- One profile's share of an evaluation pass: skip entirely when both
preference flags are false (no reminder fetch); otherwise fetch the profile's
reminders (a fetch error is logged and ends this profile only), filter by the
due test, and run the per-reminder loop. -/
def processProfile (env : Env) (now : Int) (p : Profile) : PassLog :=
  if !emailNotificationsEnabled p && !browserNotificationsEnabled p then
    PassLog.empty
  else
    match env.fetchReminders p.id with
    | Except.error e =>
        ⟨[p.id], [], [], [], ["Error fetching reminders for user: " ++ e]⟩
    | Except.ok userReminders =>
        { processDueReminders env (emailNotificationsEnabled p)
            (browserNotificationsEnabled p)
            (userReminders.filter (reminderDueFilter now)) with
          reminderFetches := [p.id] }

/-- The loop over fetched profiles, in fetch order. -/
def passOverProfiles (env : Env) (now : Int) : List Profile → PassLog
  | [] => PassLog.empty
  | p :: ps => (processProfile env now p).append (passOverProfiles env now ps)

/-- One whole evaluation pass (`checkAndSendReminderNotifications`): a profile
fetch error is logged and the pass returns; otherwise every profile is
processed in order.  The function is total: no branch raises. -/
def checkAndSendReminderNotifications (env : Env) (now : Int)
    (profilesResult : Except String (List Profile)) : PassLog :=
  match profilesResult with
  | Except.error e =>
      ⟨[], [], [], [], ["Error fetching profiles: " ++ e]⟩
  | Except.ok profiles => passOverProfiles env now profiles

/-- The browser-side environment `showBrowserNotification` inspects:
whether a `window` exists, whether the `Notification` capability is supported,
whether permission is already granted, whether the document currently has
focus, and whether the in-app feed trigger callback has been registered. -/
structure BrowserEnv where
  hasWindow : Bool
  notificationSupported : Bool
  permissionGranted : Bool
  hasFocus : Bool
  triggerSet : Bool
deriving Repr, DecidableEq

/-- Observable outcome of one `showBrowserNotification` call: the system-level
notification created (if any) and the title/body forwarded to the in-app
notification feed (if any). -/
structure BrowserOutcome where
  systemNotification : Option (String × String)
  inAppForward : Option (String × String)
deriving Repr, DecidableEq

/-- `showBrowserNotification(title, body)`: returns without effect when there
is no window, when notifications are unsupported, or when permission is not
granted; with permission granted it still returns without effect when the
document has focus; otherwise it creates the system notification and, when
the trigger callback is registered, forwards the same title/body to the
in-app feed. -/
def showBrowserNotification (env : BrowserEnv) (title body : String) :
    BrowserOutcome :=
  if !env.hasWindow then
    ⟨none, none⟩
  else if !env.notificationSupported then
    ⟨none, none⟩
  else if env.permissionGranted then
    if env.hasFocus then
      ⟨none, none⟩
    else
      ⟨some (title, body), if env.triggerSet then some (title, body) else none⟩
  else
    ⟨none, none⟩

/-- Module state of the service: the `isServiceRunning` singleton flag, the
number of recurring interval timers armed, and the number of immediate
evaluation passes run by start calls. -/
structure SchedulerState where
  isServiceRunning : Bool
  activeTimers : Nat
  immediatePassCount : Nat
deriving Repr, DecidableEq

/-- State at module load: flag down, no timer armed, no pass run. -/
def initialSchedulerState : SchedulerState := ⟨false, 0, 0⟩

/-- The recurring check interval, 30 * 1000 ms. -/
def reminderCheckIntervalMs : Nat := 30 * 1000

/-- `startReminderNotificationService`: outside a browser environment it
returns at once; if the singleton flag is already set it returns at once;
otherwise it sets the flag, runs one immediate evaluation pass and arms one
recurring interval timer. -/
def startReminderNotificationService (inBrowser : Bool) (s : SchedulerState) :
    SchedulerState :=
  if !inBrowser then s
  else if s.isServiceRunning then s
  else
    { isServiceRunning := true,
      activeTimers := s.activeTimers + 1,
      immediatePassCount := s.immediatePassCount + 1 }

/-- `n` successive calls of the start routine in the same process. -/
def startN (inBrowser : Bool) : Nat → SchedulerState → SchedulerState
  | 0, s => s
  | n + 1, s => startN inBrowser n (startReminderNotificationService inBrowser s)

/-- Trace of the `NotificationContext.checkReminders` loop: the in-app
notifications added and the reminder ids for which it set
`notification_sent = true`. -/
structure NCLog where
  notifications : List (String × String)
  updates : List Nat
deriving Repr, DecidableEq

/-- Concatenation of `NCLog` traces in execution order. -/
def NCLog.append (a b : NCLog) : NCLog :=
  ⟨a.notifications ++ b.notifications, a.updates ++ b.updates⟩

/-- Body of the `checkReminders` per-reminder loop: when the reminder is due
within the next 10 minutes (0 < dueDate - now ≤ 600000 ms) it adds an in-app
notification and issues an update setting `notification_sent = true`. -/
def ncProcessReminder (now : Int) (r : Reminder) : NCLog :=
  let diff := r.dueDate - now
  if decide (diff ≤ 600000) && decide (0 < diff) then
    ⟨[("Reminder (" ++ r.reminderType ++ ")", r.title)], [r.id]⟩
  else
    ⟨[], []⟩

/-- The `checkReminders` loop over the fetched reminders. -/
def ncLoop (now : Int) : List Reminder → NCLog
  | [] => ⟨[], []⟩
  | r :: rs => (ncProcessReminder now r).append (ncLoop now rs)

/-- `NotificationContext.checkReminders`: fetches the signed-in user's
reminders with `is_completed = false` and `notification_sent = false` (the
query's equality filters, applied here to the given rows) and runs the
per-reminder loop over them. -/
def ncCheckReminders (now : Int) (reminders : List Reminder) : NCLog :=
  ncLoop now (reminders.filter (fun r => !r.isCompleted && !r.notificationSent))

/-- Fixture: a completed reminder with id 3. -/
def rDone : Reminder := ⟨3, "Done", none, 0, true, false, "personal"⟩

/-- Fixture: an uncompleted, unsent reminder with id 4 due at 60000 ms. -/
def rDue : Reminder := ⟨4, "Tea", none, 60000, false, false, "personal"⟩

/-- Fixture: a profile with both notification preference flags true. -/
def profBoth : Profile := ⟨7, "u@example.com", some "Ada Lovelace", some ⟨some true, some true⟩⟩

/-- Fixture: a profile with both notification preference flags false. -/
def profOff : Profile := ⟨8, "v@example.com", none, some ⟨some false, some false⟩⟩

/-- Fixture: a profile with email off and browser notifications on. -/
def profBrowserOnly : Profile := ⟨9, "w@example.com", some "Bob", some ⟨some false, some true⟩⟩

/-- Fixture: an environment whose reminder fetch returns only `rDone` and
whose email and update collaborators succeed. -/
def envDone : Env :=
  ⟨fun _ => Except.ok [rDone], fun _ => Except.ok ⟨true, none⟩, fun _ => Except.ok ()⟩

/-- Fixture: an environment whose reminder fetch returns only `rDue` and
whose email adapter reports failure. -/
def envDue : Env :=
  ⟨fun _ => Except.ok [rDue], fun _ => Except.ok ⟨false, some "smtp down"⟩,
   fun _ => Except.ok ()⟩

/- Helper lemmas about the embedding, shared by the claim theorems. -/

theorem reminderDueFilter_eq (now : Int) (r : Reminder) :
    reminderDueFilter now r
      = (!r.isCompleted && !r.notificationSent && isDue now r.dueDate) := by
  unfold reminderDueFilter isDue
  cases r.isCompleted <;> cases r.notificationSent <;> simp

theorem PassLog.empty_append (b : PassLog) : PassLog.empty.append b = b := by
  cases b
  simp [PassLog.empty, PassLog.append]

theorem PassLog.append_assoc (a b c : PassLog) :
    (a.append b).append c = a.append (b.append c) := by
  cases a; cases b; cases c
  simp [PassLog.append]

theorem passOverProfiles_append (env : Env) (now : Int) (ps qs : List Profile) :
    passOverProfiles env now (ps ++ qs)
      = (passOverProfiles env now ps).append (passOverProfiles env now qs) := by
  induction ps with
  | nil => simp [passOverProfiles, PassLog.empty_append]
  | cons p ps ih => simp [passOverProfiles, ih, PassLog.append_assoc]

theorem processReminder_browserCalls (env : Env) (e b : Bool) (r : Reminder) :
    (processReminder env e b r).browserCalls
      = if b then
          [(r.id, "Reminder: " ++ r.title, r.description.getD "You have a reminder due now")]
        else [] := by
  unfold processReminder
  cases e
  · cases env.updateReminder r.id <;> simp
  · cases env.sendEmail r.id with
    | error e' => simp
    | ok result =>
        cases h : result.success
        · simp [h]
        · cases env.updateReminder r.id <;> simp [h]

theorem processReminder_updates_cases (env : Env) (e b : Bool) (r : Reminder) :
    (processReminder env e b r).updates = []
      ∨ (processReminder env e b r).updates = [r.id] := by
  unfold processReminder
  cases e
  · cases env.updateReminder r.id <;> simp
  · cases env.sendEmail r.id with
    | error e' => simp
    | ok result =>
        cases h : result.success
        · simp [h]
        · cases env.updateReminder r.id <;> simp [h]

theorem processReminder_emailCalls_cases (env : Env) (e b : Bool) (r : Reminder) :
    (processReminder env e b r).emailCalls = []
      ∨ (processReminder env e b r).emailCalls = [r.id] := by
  unfold processReminder
  cases e
  · cases env.updateReminder r.id <;> simp
  · cases env.sendEmail r.id with
    | error e' => simp
    | ok result =>
        cases h : result.success
        · simp [h]
        · cases env.updateReminder r.id <;> simp [h]

theorem processDueReminders_updates_sublist (env : Env) (e b : Bool) (l : List Reminder) :
    List.Sublist (processDueReminders env e b l).updates (l.map Reminder.id) := by
  induction l with
  | nil => simp [processDueReminders, PassLog.empty]
  | cons r rs ih =>
      show List.Sublist ((processReminder env e b r).updates
        ++ (processDueReminders env e b rs).updates) (r.id :: rs.map Reminder.id)
      rcases processReminder_updates_cases env e b r with h | h <;> rw [h]
      · exact List.Sublist.cons _ ih
      · exact List.Sublist.cons₂ _ ih

theorem processDueReminders_emailCalls_sublist (env : Env) (e b : Bool) (l : List Reminder) :
    List.Sublist (processDueReminders env e b l).emailCalls (l.map Reminder.id) := by
  induction l with
  | nil => simp [processDueReminders, PassLog.empty]
  | cons r rs ih =>
      show List.Sublist ((processReminder env e b r).emailCalls
        ++ (processDueReminders env e b rs).emailCalls) (r.id :: rs.map Reminder.id)
      rcases processReminder_emailCalls_cases env e b r with h | h <;> rw [h]
      · exact List.Sublist.cons _ ih
      · exact List.Sublist.cons₂ _ ih

theorem mem_processDueReminders_browserCalls (env : Env) (e b : Bool)
    (l : List Reminder) (i : Nat) (t bo : String) :
    (i, t, bo) ∈ (processDueReminders env e b l).browserCalls →
    ∃ r, r ∈ l ∧ r.id = i := by
  induction l with
  | nil => simp [processDueReminders, PassLog.empty]
  | cons r rs ih =>
      show (i, t, bo) ∈ (processReminder env e b r).browserCalls
        ++ (processDueReminders env e b rs).browserCalls → _
      rw [processReminder_browserCalls]
      intro h
      rcases List.mem_append.1 h with h1 | h2
      · cases b with
        | false => simp at h1
        | true =>
            refine ⟨r, List.mem_cons_self r rs, ?_⟩
            simp at h1
            exact h1.1.symm
      · rcases ih h2 with ⟨r', hr', hi⟩
        exact ⟨r', List.mem_cons_of_mem r hr', hi⟩

theorem processProfile_skip (env : Env) (now : Int) (p : Profile)
    (h1 : emailNotificationsEnabled p = false)
    (h2 : browserNotificationsEnabled p = false) :
    processProfile env now p = PassLog.empty := by
  unfold processProfile
  rw [h1, h2]
  simp

theorem processProfile_fetch_ok (env : Env) (now : Int) (p : Profile)
    (rs : List Reminder)
    (hskip : (!emailNotificationsEnabled p && !browserNotificationsEnabled p) = false)
    (hf : env.fetchReminders p.id = Except.ok rs) :
    processProfile env now p
      = { processDueReminders env (emailNotificationsEnabled p)
            (browserNotificationsEnabled p) (rs.filter (reminderDueFilter now)) with
          reminderFetches := [p.id] } := by
  unfold processProfile
  rw [hskip, hf]
  simp

theorem processProfile_ids_due (env : Env) (now : Int) (p : Profile) (i : Nat) :
    (i ∈ (processProfile env now p).updates
      ∨ i ∈ (processProfile env now p).emailCalls
      ∨ ∃ t bo, (i, t, bo) ∈ (processProfile env now p).browserCalls) →
    ∃ rs, env.fetchReminders p.id = Except.ok rs
      ∧ ∃ r, r ∈ rs ∧ r.id = i ∧ reminderDueFilter now r = true := by
  intro h
  cases hskip : (!emailNotificationsEnabled p && !browserNotificationsEnabled p) with
  | true =>
      rw [processProfile_skip env now p] at h
      · simp [PassLog.empty] at h
      · cases he : emailNotificationsEnabled p
        · rfl
        · rw [he] at hskip; simp at hskip
      · cases hb : browserNotificationsEnabled p
        · rfl
        · rw [hb] at hskip; simp at hskip
  | false =>
      cases hf : env.fetchReminders p.id with
      | error e =>
          have hp : processProfile env now p
              = ⟨[p.id], [], [], [], ["Error fetching reminders for user: " ++ e]⟩ := by
            unfold processProfile
            rw [hskip, hf]
            simp
          rw [hp] at h
          simp at h
      | ok rs =>
          rw [processProfile_fetch_ok env now p rs hskip hf] at h
          refine ⟨rs, rfl, ?_⟩
          have hmem : ∃ r, r ∈ rs.filter (reminderDueFilter now) ∧ r.id = i := by
            rcases h with h | h | ⟨t, bo, h⟩
            · have h' := (processDueReminders_updates_sublist env
                (emailNotificationsEnabled p) (browserNotificationsEnabled p)
                (rs.filter (reminderDueFilter now))).mem h
              rcases List.mem_map.1 h' with ⟨r, hr, hi⟩
              exact ⟨r, hr, hi⟩
            · have h' := (processDueReminders_emailCalls_sublist env
                (emailNotificationsEnabled p) (browserNotificationsEnabled p)
                (rs.filter (reminderDueFilter now))).mem h
              rcases List.mem_map.1 h' with ⟨r, hr, hi⟩
              exact ⟨r, hr, hi⟩
            · exact mem_processDueReminders_browserCalls env
                (emailNotificationsEnabled p) (browserNotificationsEnabled p)
                (rs.filter (reminderDueFilter now)) i t bo h
          rcases hmem with ⟨r, hr, hi⟩
          rcases List.mem_filter.1 hr with ⟨hrs, hdue⟩
          exact ⟨r, hrs, hi, hdue⟩

theorem processProfile_updates_nodup (env : Env) (now : Int) (p : Profile)
    (rs : List Reminder) (hf : env.fetchReminders p.id = Except.ok rs)
    (hn : (rs.map Reminder.id).Nodup) :
    (processProfile env now p).updates.Nodup := by
  cases hskip : (!emailNotificationsEnabled p && !browserNotificationsEnabled p) with
  | true =>
      unfold processProfile
      rw [hskip]
      simp [PassLog.empty]
  | false =>
      rw [processProfile_fetch_ok env now p rs hskip hf]
      have h1 := processDueReminders_updates_sublist env
        (emailNotificationsEnabled p) (browserNotificationsEnabled p)
        (rs.filter (reminderDueFilter now))
      have h2 : List.Sublist ((rs.filter (reminderDueFilter now)).map Reminder.id)
          (rs.map Reminder.id) :=
        (List.filter_sublist rs).map Reminder.id
      exact hn.sublist (h1.trans h2)

theorem processReminder_email_updates (env : Env) (b : Bool) (r : Reminder) :
    (processReminder env true b r).updates
      = if emailReportsSuccess env r.id = true then [r.id] else [] := by
  unfold processReminder emailReportsSuccess
  cases env.sendEmail r.id with
  | error e' => simp
  | ok result =>
      cases h : result.success
      · simp [h]
      · cases env.updateReminder r.id <;> simp [h]

theorem processReminder_noemail (env : Env) (r : Reminder) :
    (processReminder env false true r).updates = [r.id]
      ∧ (processReminder env false true r).browserCalls
          = [(r.id, "Reminder: " ++ r.title,
              r.description.getD "You have a reminder due now")]
      ∧ (processReminder env false true r).emailCalls = [] := by
  unfold processReminder
  cases env.updateReminder r.id <;> simp

theorem processDueReminders_noemail (env : Env) (l : List Reminder) :
    (processDueReminders env false true l).updates = l.map Reminder.id
      ∧ (processDueReminders env false true l).browserCalls
          = l.map (fun r => (r.id, "Reminder: " ++ r.title,
              r.description.getD "You have a reminder due now"))
      ∧ (processDueReminders env false true l).emailCalls = [] := by
  induction l with
  | nil => simp [processDueReminders, PassLog.empty]
  | cons r rs ih =>
      have hr := processReminder_noemail env r
      refine ⟨?_, ?_, ?_⟩
      · show (processReminder env false true r).updates
          ++ (processDueReminders env false true rs).updates = _
        rw [hr.1, ih.1]
        simp
      · show (processReminder env false true r).browserCalls
          ++ (processDueReminders env false true rs).browserCalls = _
        rw [hr.2.1, ih.2.1]
        simp
      · show (processReminder env false true r).emailCalls
          ++ (processDueReminders env false true rs).emailCalls = _
        rw [hr.2.2, ih.2.2]
        simp

theorem start_running_noop (s : SchedulerState) (h : s.isServiceRunning = true) :
    startReminderNotificationService true s = s := by
  simp [startReminderNotificationService, h]

theorem startN_running (n : Nat) (s : SchedulerState)
    (h : s.isServiceRunning = true) : startN true n s = s := by
  induction n with
  | zero => rfl
  | succ n ih => simp [startN, start_running_noop s h, ih]

/-- Claim C1: the due test of an evaluation pass is exactly the symmetric
inclusive ±120 s (120 * 1000 ms) window around the due timestamp: `isDue` is
true iff `dueAt - 120s ≤ now ≤ dueAt + 120s`, both boundaries inclusive, the
instant strictly past either boundary is not due, and the pass's reminder
filter fires only through `isDue` (so an instant outside the window is never
fired: no overdue catch-up). -/
theorem claim_c1_due_window (now dueAt : Int) :
    (isDue now dueAt = true ↔ dueAt - 120 * 1000 ≤ now ∧ now ≤ dueAt + 120 * 1000)
    ∧ isDue (dueAt + 120 * 1000) dueAt = true
    ∧ isDue (dueAt + 120 * 1000 + 1) dueAt = false
    ∧ isDue (dueAt - 120 * 1000 - 1) dueAt = false
    ∧ ∀ r : Reminder, reminderDueFilter now r
        = (!r.isCompleted && !r.notificationSent && isDue now r.dueDate) := by
  have hiff : ∀ n d : Int,
      isDue n d = true ↔ d - 120 * 1000 ≤ n ∧ n ≤ d + 120 * 1000 := by
    intro n d
    simp only [isDue, Bool.and_eq_true, decide_eq_true_eq]
    omega
  refine ⟨hiff now dueAt, (hiff _ _).2 (by omega), ?_, ?_,
    fun r => reminderDueFilter_eq now r⟩
  · cases h : isDue (dueAt + 120 * 1000 + 1) dueAt
    · rfl
    · have := (hiff _ _).1 h
      omega
  · cases h : isDue (dueAt - 120 * 1000 - 1) dueAt
    · rfl
    · have := (hiff _ _).1 h
      omega

/-- Claim C2, counterexample: the Polling Scheduler is not the only component
that delivers reminder notifications or sets the dedup flag.  The
`NotificationContext.checkReminders` loop, run at `now = 0` over a single
uncompleted, unsent reminder due at 300000 ms (within its 10-minute
look-ahead), adds an in-app reminder notification and issues the
`notification_sent = true` update for that reminder. -/
theorem claim_c2_counterexample :
    (ncCheckReminders 0 [⟨1, "Standup", none, 300000, false, false, "personal"⟩]).updates
        = [1]
    ∧ (ncCheckReminders 0 [⟨1, "Standup", none, 300000, false, false, "personal"⟩]).notifications
        = [("Reminder (personal)", "Standup")] := by
  constructor <;> rfl

/-- Claim C2, amended: the scheduler's evaluation pass issues the
`notification_sent = true` update only for reminders that were fetched,
uncompleted, unsent and inside the due window, and at most once per reminder
per pass (given distinct reminder ids); however it is not the sole writer of
the dedup flag: the `NotificationContext.checkReminders` loop also delivers
an in-app reminder notification and sets `notification_sent = true` for every
uncompleted, unsent reminder due within the next 10 minutes. -/
theorem claim_c2_amended_not_sole_writer :
    (∀ (env : Env) (now : Int) (p : Profile) (i : Nat),
        i ∈ (processProfile env now p).updates →
        ∃ rs, env.fetchReminders p.id = Except.ok rs
          ∧ ∃ r, r ∈ rs ∧ r.id = i ∧ r.isCompleted = false
              ∧ r.notificationSent = false ∧ isDue now r.dueDate = true)
    ∧ (∀ (env : Env) (now : Int) (p : Profile) (rs : List Reminder),
        env.fetchReminders p.id = Except.ok rs → (rs.map Reminder.id).Nodup →
        (processProfile env now p).updates.Nodup)
    ∧ (∀ (now : Int) (r : Reminder),
        r.isCompleted = false → r.notificationSent = false →
        0 < r.dueDate - now → r.dueDate - now ≤ 600000 →
        ncCheckReminders now [r]
          = ⟨[("Reminder (" ++ r.reminderType ++ ")", r.title)], [r.id]⟩) := by
  refine ⟨?_, ?_, ?_⟩
  · intro env now p i h
    rcases processProfile_ids_due env now p i (Or.inl h) with ⟨rs, hf, r, hr, hi, hdue⟩
    rw [reminderDueFilter_eq] at hdue
    simp only [Bool.and_eq_true, Bool.not_eq_true'] at hdue
    exact ⟨rs, hf, r, hr, hi, hdue.1.1, hdue.1.2, hdue.2⟩
  · intro env now p rs hf hn
    exact processProfile_updates_nodup env now p rs hf hn
  · intro now r hc hs h1 h2
    have hfil : (List.filter (fun r => !r.isCompleted && !r.notificationSent) [r]) = [r] := by
      simp [hc, hs]
    have ha : r.dueDate ≤ 600000 + now := by omega
    have hb : now < r.dueDate := by omega
    unfold ncCheckReminders
    rw [hfil]
    simp [ncLoop, ncProcessReminder, NCLog.append, ha, hb]

/-- Claim C3: with the email preference enabled, the pass issues the
`notification_sent = true` update for a due reminder exactly when the email
adapter reports success; on a reported failure (including a thrown send) no
update is issued, the stored flag stays false, and the reminder still passes
the due filter on any later pass whose time is inside the due window. -/
theorem claim_c3_email_success_gates_dedup (env : Env) (browserEnabled : Bool)
    (r : Reminder) :
    ((processReminder env true browserEnabled r).updates
        = if emailReportsSuccess env r.id = true then [r.id] else [])
    ∧ (emailReportsSuccess env r.id = false →
        (processReminder env true browserEnabled r).updates = []
        ∧ markNotified env (processReminder env true browserEnabled r) r = r
        ∧ ∀ now' : Int, isDue now' r.dueDate = true → r.isCompleted = false →
            r.notificationSent = false → reminderDueFilter now' r = true) := by
  have hu := processReminder_email_updates env browserEnabled r
  refine ⟨hu, fun hfail => ?_⟩
  have h0 : (processReminder env true browserEnabled r).updates = [] := by
    rw [hu, hfail]
    simp
  refine ⟨h0, ?_, ?_⟩
  · unfold markNotified
    rw [h0]
    simp
  · intro now' hd hc hs
    rw [reminderDueFilter_eq, hc, hs, hd]
    rfl

/-- Claim C4: with email disabled and browser notifications enabled, the pass
issues the `notification_sent = true` update for every due reminder of the
profile, after invoking the browser channel for each, with no email call —
and it does so for any collaborator environment whatsoever, i.e. regardless
of whether the browser notification is actually displayed. -/
theorem claim_c4_browser_only_marks_unconditionally (env : Env) (now : Int)
    (p : Profile) (rs : List Reminder)
    (hEmail : emailNotificationsEnabled p = false)
    (hBrowser : browserNotificationsEnabled p = true)
    (hf : env.fetchReminders p.id = Except.ok rs) :
    (processProfile env now p).updates
        = (rs.filter (reminderDueFilter now)).map Reminder.id
    ∧ (processProfile env now p).browserCalls
        = (rs.filter (reminderDueFilter now)).map
            (fun r => (r.id, "Reminder: " ++ r.title,
              r.description.getD "You have a reminder due now"))
    ∧ (processProfile env now p).emailCalls = [] := by
  have hskip : (!emailNotificationsEnabled p && !browserNotificationsEnabled p)
      = false := by
    rw [hEmail, hBrowser]
    rfl
  rw [processProfile_fetch_ok env now p rs hskip hf, hEmail, hBrowser]
  have h := processDueReminders_noemail env (rs.filter (reminderDueFilter now))
  exact ⟨h.1, h.2.1, h.2.2⟩

/-- Claim C4, witness: at time 0, for the browser-only profile and an
environment whose fetch returns the due reminder `rDue` (id 4) and whose
email adapter would fail, the pass issues the dedup update for id 4. -/
theorem claim_c4_witness :
    (processProfile envDue 0 profBrowserOnly).updates = [4] := by
  have h := claim_c4_browser_only_marks_unconditionally envDue 0 profBrowserOnly
    [rDue] rfl rfl rfl
  rw [h.1]
  rfl

/-- Claim C5: a reminder that is completed, or whose notification was already
sent, never passes the due filter, never has any delivery channel invoked for
it, and never has a dedup update issued for it by an evaluation pass,
regardless of its due timestamp. -/
theorem claim_c5_completed_or_sent_never_processed (env : Env) (now : Int)
    (p : Profile) (rs : List Reminder) (i : Nat)
    (hf : env.fetchReminders p.id = Except.ok rs)
    (hall : ∀ r, r ∈ rs → r.id = i →
      r.isCompleted = true ∨ r.notificationSent = true) :
    (∀ r, r ∈ rs → r.id = i → reminderDueFilter now r = false)
    ∧ i ∉ (processProfile env now p).updates
    ∧ i ∉ (processProfile env now p).emailCalls
    ∧ ∀ t bo, (i, t, bo) ∉ (processProfile env now p).browserCalls := by
  have hfilter : ∀ r, r ∈ rs → r.id = i → reminderDueFilter now r = false := by
    intro r hr hi
    rcases hall r hr hi with hc | hs
    · rw [reminderDueFilter_eq, hc]
      rfl
    · rw [reminderDueFilter_eq, hs]
      simp
  have hnot : ∀ r, r ∈ rs → r.id = i → reminderDueFilter now r = true → False := by
    intro r hr hi hdue
    rw [hfilter r hr hi] at hdue
    simp at hdue
  refine ⟨hfilter, ?_, ?_, ?_⟩
  · intro hmem
    rcases processProfile_ids_due env now p i (Or.inl hmem) with
      ⟨rs', hf', r, hr, hi, hdue⟩
    rw [hf] at hf'
    injection hf' with he
    subst he
    exact hnot r hr hi hdue
  · intro hmem
    rcases processProfile_ids_due env now p i (Or.inr (Or.inl hmem)) with
      ⟨rs', hf', r, hr, hi, hdue⟩
    rw [hf] at hf'
    injection hf' with he
    subst he
    exact hnot r hr hi hdue
  · intro t bo hmem
    rcases processProfile_ids_due env now p i (Or.inr (Or.inr ⟨t, bo, hmem⟩)) with
      ⟨rs', hf', r, hr, hi, hdue⟩
    rw [hf] at hf'
    injection hf' with he
    subst he
    exact hnot r hr hi hdue

/-- Claim C5, witness: for the environment whose fetch returns only the
completed reminder `rDone` (id 3) and a profile with both channels enabled,
the pass issues no dedup update for id 3. -/
theorem claim_c5_witness :
    (3 : Nat) ∉ (processProfile envDone 0 profBoth).updates := by
  have h := claim_c5_completed_or_sent_never_processed envDone 0 profBoth
    [rDone] 3 rfl (by
      intro r hr _
      simp only [List.mem_singleton] at hr
      subst hr
      exact Or.inl rfl)
  exact h.2.1

/-- Claim C6: starting the scheduler is idempotent: from the initial state,
any positive number of start calls leaves exactly one armed recurring timer
(interval 30 * 1000 ms) and exactly one immediate evaluation pass run, and a
start call on an already-running state is a no-op. -/
theorem claim_c6_idempotent_start :
    (∀ n : Nat, startN true (n + 1) initialSchedulerState = ⟨true, 1, 1⟩)
    ∧ (∀ s : SchedulerState, s.isServiceRunning = true →
        startReminderNotificationService true s = s)
    ∧ reminderCheckIntervalMs = 30 * 1000 := by
  refine ⟨?_, fun s h => start_running_noop s h, rfl⟩
  intro n
  show startN true n (startReminderNotificationService true initialSchedulerState)
    = (⟨true, 1, 1⟩ : SchedulerState)
  have h1 : startReminderNotificationService true initialSchedulerState
      = (⟨true, 1, 1⟩ : SchedulerState) := rfl
  rw [h1]
  exact startN_running n _ rfl

/-- Claim C7: a profile with both notification preference flags false is
skipped entirely by the evaluation pass: its trace is empty, so in particular
no reminder fetch is issued and no channel is invoked on its behalf. -/
theorem claim_c7_skip_when_all_disabled (env : Env) (now : Int) (p : Profile)
    (h1 : emailNotificationsEnabled p = false)
    (h2 : browserNotificationsEnabled p = false) :
    processProfile env now p = PassLog.empty
    ∧ (processProfile env now p).reminderFetches = []
    ∧ (processProfile env now p).browserCalls = []
    ∧ (processProfile env now p).emailCalls = [] := by
  have h := processProfile_skip env now p h1 h2
  rw [h]
  exact ⟨rfl, rfl, rfl, rfl⟩

/-- Claim C7, witness: the profile with both preference flags explicitly
false produces an empty trace. -/
theorem claim_c7_witness :
    processProfile envDone 0 profOff = PassLog.empty :=
  (claim_c7_skip_when_all_disabled envDone 0 profOff rfl rfl).1

/-- Claim C8: failure is isolated per item: processing a list of profiles is
the concatenation of processing its parts (so one item's outcome never
affects another's); a failed profile fetch makes the whole pass return just a
log line; a failed reminder fetch for one profile yields just that profile's
log line; a thrown email send for one reminder withholds only that reminder's
update and logs the error.  Every branch returns a `PassLog`: the pass never
propagates an error to its caller. -/
theorem claim_c8_per_item_failure_isolation :
    (∀ (env : Env) (now : Int) (ps qs : List Profile),
        passOverProfiles env now (ps ++ qs)
          = (passOverProfiles env now ps).append (passOverProfiles env now qs))
    ∧ (∀ (env : Env) (now : Int) (e : String),
        checkAndSendReminderNotifications env now (Except.error e)
          = ⟨[], [], [], [], ["Error fetching profiles: " ++ e]⟩)
    ∧ (∀ (env : Env) (now : Int) (p : Profile) (e : String),
        env.fetchReminders p.id = Except.error e →
        (emailNotificationsEnabled p || browserNotificationsEnabled p) = true →
        processProfile env now p
          = ⟨[p.id], [], [], [], ["Error fetching reminders for user: " ++ e]⟩)
    ∧ (∀ (env : Env) (b : Bool) (r : Reminder) (e : String),
        env.sendEmail r.id = Except.error e →
        (processReminder env true b r).updates = []
          ∧ (processReminder env true b r).errors
              = ["Error sending notification for reminder: " ++ e]) := by
  refine ⟨passOverProfiles_append, fun env now e => rfl, ?_, ?_⟩
  · intro env now p e hf hon
    have hskip : (!emailNotificationsEnabled p && !browserNotificationsEnabled p)
        = false := by
      cases he : emailNotificationsEnabled p <;>
        cases hb : browserNotificationsEnabled p <;> simp_all
    unfold processProfile
    rw [hskip, hf]
    simp
  · intro env b r e hs
    unfold processReminder
    rw [hs]
    simp

/-- Claim C8, witness: with an environment whose reminder fetch fails for
every profile, the pass over the all-enabled profile returns exactly the
fetch log line with no channel call and no update. -/
theorem claim_c8_witness :
    processProfile
        ⟨fun _ => Except.error "boom", fun _ => Except.ok ⟨true, none⟩,
         fun _ => Except.ok ()⟩ 0 profBoth
      = ⟨[7], [], [], [], ["Error fetching reminders for user: " ++ "boom"]⟩ :=
  claim_c8_per_item_failure_isolation.2.2.1
    ⟨fun _ => Except.error "boom", fun _ => Except.ok ⟨true, none⟩,
     fun _ => Except.ok ()⟩ 0 profBoth "boom" rfl rfl

/-- Claim C9: a profile whose preferences object is null/absent, or present
with both notification keys absent, has both flags treated as false and is
skipped by the pass exactly like a profile that explicitly disabled all
notifications. -/
theorem claim_c9_missing_preferences_skip (env : Env) (now : Int) (i : Nat)
    (em : String) (fn : Option String) :
    (emailNotificationsEnabled ⟨i, em, fn, none⟩ = false
      ∧ browserNotificationsEnabled ⟨i, em, fn, none⟩ = false
      ∧ processProfile env now ⟨i, em, fn, none⟩ = PassLog.empty)
    ∧ (emailNotificationsEnabled ⟨i, em, fn, some ⟨none, none⟩⟩ = false
      ∧ browserNotificationsEnabled ⟨i, em, fn, some ⟨none, none⟩⟩ = false
      ∧ processProfile env now ⟨i, em, fn, some ⟨none, none⟩⟩ = PassLog.empty) :=
  ⟨⟨rfl, rfl, processProfile_skip env now _ rfl rfl⟩,
   ⟨rfl, rfl, processProfile_skip env now _ rfl rfl⟩⟩

/-- Claim C10: the browser channel forwards the title/body to the in-app feed
exactly when a system notification is created and the trigger callback is
registered (so an in-app forward implies a created popup), and whenever
notifications are unsupported, permission is not granted, or the document has
focus, the call is a complete no-op: neither a popup nor a feed entry. -/
theorem claim_c10_inapp_only_with_popup (env : BrowserEnv) (title body : String) :
    ((showBrowserNotification env title body).inAppForward
        = if env.hasWindow && env.notificationSupported && env.permissionGranted
              && !env.hasFocus && env.triggerSet
          then some (title, body) else none)
    ∧ ((showBrowserNotification env title body).systemNotification
        = if env.hasWindow && env.notificationSupported && env.permissionGranted
              && !env.hasFocus
          then some (title, body) else none)
    ∧ (env.notificationSupported = false ∨ env.permissionGranted = false
        ∨ env.hasFocus = true →
        showBrowserNotification env title body = ⟨none, none⟩) := by
  obtain ⟨w, su, g, f, t⟩ := env
  cases w <;> cases su <;> cases g <;> cases f <;> cases t <;>
    simp [showBrowserNotification]
